import Mathlib

/-!
Shallow embedding of the vyse text viewer (src/buffer.rs, src/view.rs):
the Document/Buffer line store and the viewport/cursor controller.

Rust `usize` is modelled as `Nat` together with the saturating operations
the source uses (`usize::MAX` is kept explicit, since the source assigns it
for the End/PageDown keys and relies on later clamping).  String content is
modelled as a list of characters with explicit UTF-8 byte lengths, so that
byte-index slicing — and the panic it can raise on a non-boundary index —
can be stated faithfully.  Terminal drawing is recorded as data (which rows
are painted with what, whether the status bar is painted) rather than
performed; the terminal itself is a write-only collaborator whose calls
cannot influence the controller state.
-/

namespace Vyse

/-- usize::MAX on a 64-bit target. -/
def USIZE_MAX : Nat := 18446744073709551615

/-- usize::saturating_add.  (usize::saturating_sub on Nat is plain
truncated subtraction, so it needs no separate definition.) -/
def sadd (a b : Nat) : Nat := min (a + b) USIZE_MAX

/-- Rust char::len_utf8: the number of bytes of the UTF-8 encoding. -/
def utf8Len (c : Char) : Nat :=
  if c.toNat < 128 then 1
  else if c.toNat < 2048 then 2
  else if c.toNat < 65536 then 3
  else 4

/-- A line of text, as its sequence of characters. -/
abbrev Line := List Char

/-- str::len: the UTF-8 byte length of a line. -/
def byteLen (l : Line) : Nat := (l.map utf8Len).sum

/-- str::char_indices, starting at byte offset i: each character paired
with the byte offset at which its encoding starts. -/
def charIndicesAux : Nat → Line → List (Nat × Char)
  | _, [] => []
  | i, c :: cs => (i, c) :: charIndicesAux (i + utf8Len c) cs

/-- str::char_indices. -/
def charIndices (l : Line) : List (Nat × Char) := charIndicesAux 0 l

/-- The byte offsets that are char boundaries of `l`
(str::is_char_boundary): 0 together with the end offset of every
character.  Indexing a Rust str with a range whose endpoint is not in this
list panics. -/
def charBoundaries (l : Line) : List Nat :=
  0 :: (charIndices l).map (fun p => p.1 + utf8Len p.2)

/-- The characters of `l` whose starting byte offset lies in [lo, hi):
the content of the byte slice l[lo..hi] when both lo and hi are char
boundaries. -/
def charsInByteRange (l : Line) (lo hi : Nat) : Line :=
  ((charIndices l).filter (fun p => decide (lo ≤ p.1) && decide (p.1 < hi))).map
    Prod.snd

/-- std::io::Error, kept abstract: only its identity matters. -/
inductive IOError
  | err (code : Nat)
deriving Repr, DecidableEq

/-- Buffer (src/buffer.rs): the loaded document. -/
structure Buffer where
  lines : List Line
  path : String
deriving Repr, DecidableEq

/-- Buffer::default(). -/
def Buffer.empty : Buffer := ⟨[], "<empty file>"⟩

/-- Buffer::from_path.  The file system is external, so the combined
outcome of fs::read_to_string followed by content.lines() is passed in as
`readResult`: either the list of lines of the file, or the I/O error the
read failed with.  The `?` operator propagates the error before any field
is built. -/
def Buffer.from_path (path : String) (readResult : Except IOError (List Line)) :
    Except IOError Buffer :=
  match readResult with
  | .error e => .error e
  | .ok ls => .ok ⟨ls, path⟩

/-- Buffer::get_line_length: `self.lines.get(index).map_or(0, |line|
line.len().saturating_sub(1))`.  Note that Rust String::len is the BYTE
length. -/
def Buffer.get_line_length (b : Buffer) (index : Nat) : Nat :=
  match b.lines.get? index with
  | none => 0
  | some line => byteLen line - 1

/-- Outcome of Buffer::get_truncated_line: the row does not exist, the
slice succeeds, or the byte-range indexing panics (endpoint not on a char
boundary). -/
inductive SliceResult
  | panicked
  | noLine
  | ok (chars : Line)
deriving Repr, DecidableEq

/-- Buffer::get_truncated_line: `line.char_indices().skip(col).take(width)`
yields the included characters; `start` is the byte offset of the first,
`end` the byte offset at which the LAST included character starts (the
iterator's `.last()` after the initial `.next()` is the last of the whole
included group when it has two or more elements, and `map_or(start, ..)`
makes it `start` for a single element, so in both cases it is the last
element's offset).  The source then returns `&line[start..=end]`, i.e. the
byte range [start, end+1), which panics when end+1 is not a char boundary. -/
def Buffer.get_truncated_line (b : Buffer) (row col width : Nat) : SliceResult :=
  match b.lines.get? row with
  | none => .noLine
  | some line =>
    let included := ((charIndices line).drop col).take width
    match included.head? with
    | none => .ok []
    | some (start, _) =>
      let endIdx :=
        match included.getLast? with
        | some (e, _) => e
        | none => start
      if (charBoundaries line).contains (endIdx + 1) then
        .ok (charsInByteRange line start (endIdx + 1))
      else
        .panicked

/-- Buffer::get_last_line_index: `self.lines.len().saturating_sub(1)`. -/
def Buffer.get_last_line_index (b : Buffer) : Nat := b.lines.length - 1

/-- terminal::Size (u16 fields in the source). -/
structure Size where
  width : Nat
  height : Nat
deriving Repr, DecidableEq

/-- view::Location. -/
structure Location where
  row : Nat
  col : Nat
deriving Repr, DecidableEq

/-- view::View: the viewport/cursor controller state. -/
structure View where
  buffer : Buffer
  needs_redraw : Bool
  current_size : Size
  cursor_location : Location
  scroll_offset : Location
deriving Repr, DecidableEq

/-- View::default(): empty buffer, flag clear, everything zero. -/
def View.initial : View :=
  { buffer := Buffer.empty, needs_redraw := false,
    current_size := ⟨0, 0⟩, cursor_location := ⟨0, 0⟩, scroll_offset := ⟨0, 0⟩ }

/-- View::load: `self.buffer = Buffer::from_path(path)?; self.needs_redraw
= true;`.  On error the `?` returns before the assignment, so the state is
unchanged. -/
def View.load (v : View) (path : String)
    (readResult : Except IOError (List Line)) : Except IOError Unit × View :=
  match Buffer.from_path path readResult with
  | .error e => (.error e, v)
  | .ok b => (.ok (), { v with buffer := b, needs_redraw := true })

/-- View::is_of_sufficient_size. -/
def View.is_of_sufficient_size (v : View) : Bool :=
  decide (1 < v.current_size.height) && decide (0 < v.current_size.width)

/-- View::buffer_height: `self.current_size.height.saturating_sub(1)`. -/
def View.buffer_height (v : View) : Nat := v.current_size.height - 1

/-- One axis of View::update_scroll, with the sequential field mutations
of the source made explicit (branch 2 reads the scroll coordinate written
by branch 1): pull the scroll back to the cursor if it overshot, then let
`view_end = scroll + span` and advance by `cursor - view_end` if the
cursor is beyond it.  The source runs this once for rows with
`span = buffer_height().saturating_sub(1)` and once for columns with
`span = current_size.width`. -/
def scrollAdjust (scroll cursor span : Nat) : Nat :=
  let s1 := if scroll > cursor then cursor else scroll
  let view_end := sadd s1 span
  if cursor > view_end then sadd s1 (cursor - view_end) else s1

/-- View::update_scroll. -/
def View.update_scroll (v : View) : View :=
  { v with scroll_offset :=
      { row := scrollAdjust v.scroll_offset.row v.cursor_location.row
          (v.buffer_height - 1),
        col := scrollAdjust v.scroll_offset.col v.cursor_location.col
          v.current_size.width } }

/-- The eight navigation keys View::move_cursor handles. -/
inductive MoveKey
  | left | right | up | down | pageUp | pageDown | home | endKey
deriving Repr, DecidableEq

/-- The cursor-location part of View::move_cursor: the raw movement for the
pressed key, then the column clamp — computed against the possibly still
out-of-range new row — and then the row clamp, in the source's order. -/
def cursorAfter (b : Buffer) (loc : Location) (k : MoveKey) : Location :=
  let loc1 : Location :=
    match k with
    | .left =>
      if loc.col = 0 then
        if loc.row ≠ 0 then
          let row := loc.row - 1
          { row := row, col := b.get_line_length row }
        else
          loc
      else
        { loc with col := loc.col - 1 }
    | .right =>
      let current_line_length := b.get_line_length loc.row
      if loc.col = current_line_length then
        { row := sadd loc.row 1, col := 0 }
      else
        { loc with col := sadd loc.col 1 }
    | .up => { loc with row := loc.row - 1 }
    | .down => { loc with row := sadd loc.row 1 }
    | .pageUp => { row := 0, col := 0 }
    | .pageDown => { row := USIZE_MAX, col := 0 }
    | .home => { loc with col := 0 }
    | .endKey => { loc with col := USIZE_MAX }
  let loc2 : Location := { loc1 with col := min loc1.col (b.get_line_length loc1.row) }
  { loc2 with row := min loc2.row b.get_last_line_index }

/-- View::move_cursor: move and clamp the cursor, update the scroll,
set the redraw flag. -/
def View.move_cursor (v : View) (k : MoveKey) : View :=
  let v1 := { v with cursor_location := cursorAfter v.buffer v.cursor_location k }
  let v2 := v1.update_scroll
  { v2 with needs_redraw := true }

/-- View::handle_resize_event. -/
def View.handle_resize_event (v : View) (width height : Nat) : View :=
  { v with current_size := ⟨width, height⟩, needs_redraw := true }

/-- What render_line paints for one screen row: either a line slice or the
`~` placeholder. -/
inductive RowPaint
  | text (chars : Line)
  | tilde
deriving Repr, DecidableEq

/-- What one executed paint pass draws: the buffer rows top to bottom, the
status bar (whose textual content no claim needs), and the relative cursor
position (with the `as u16` truncations of the source). -/
structure Paint where
  rows : List RowPaint
  statusBar : Bool
  cursorPos : Nat × Nat
deriving Repr, DecidableEq

/-- The slice render_buffer requests for screen row `y`:
`buffer_row_index = y + scroll_offset.row`, starting column
`scroll_offset.col`, width the full terminal width. -/
def View.rowSlice (v : View) (y : Nat) : SliceResult :=
  v.buffer.get_truncated_line (y + v.scroll_offset.row) v.scroll_offset.col
    v.current_size.width

/-- View::render.  The source's guard is
`if !self.needs_redraw && !self.is_of_sufficient_size() { return Ok(()) }`
(note: a conjunction), after which it unconditionally runs render_buffer,
render_status_bar, repositions the cursor and clears the flag.  The result
is `none` when the pass panics: either a row slice hits a non-boundary
byte index, or render_status_bar computes `height - 1` on u16 with
height = 0 (an overflow panic in a checked build).  Otherwise it is
`some (p, v')` where `p` records what was painted (`none` for the early
return) and `v'` is the resulting state. -/
def View.render (v : View) : Option (Option Paint × View) :=
  if !v.needs_redraw && !v.is_of_sufficient_size then
    some (none, v)
  else
    let slices := (List.range v.buffer_height).map v.rowSlice
    if slices.contains SliceResult.panicked then
      none
    else if v.current_size.height = 0 then
      none
    else
      let rows := slices.map (fun s =>
        match s with
        | .ok cs => RowPaint.text cs
        | _ => RowPaint.tilde)
      some (some
        { rows := rows,
          statusBar := true,
          cursorPos :=
            ((v.cursor_location.col - v.scroll_offset.col) % 65536,
             (v.cursor_location.row - v.scroll_offset.row) % 65536) },
        { v with needs_redraw := false })

/-- The externally driven events of the controller.  A Load carries the
outcome of the external file read (content or error), since the file
system is outside the model. -/
inductive Event
  | move (k : MoveKey)
  | resize (width height : Nat)
  | load (path : String) (content : List Line)
  | loadErr (path : String) (e : IOError)

/-- Dispatch one event (View::handle_event for keys and resizes,
View::load for loads; the returned Result of load is dropped here, the
state it leaves behind is kept). -/
def View.applyEvent (v : View) : Event → View
  | .move k => v.move_cursor k
  | .resize w h => v.handle_resize_event w h
  | .load p content => (v.load p (.ok content)).2
  | .loadErr p e => (v.load p (.error e)).2

/-- Apply a sequence of events in order. -/
def View.applyEvents (v : View) (evs : List Event) : View :=
  evs.foldl View.applyEvent v

/-- The size bounds every Rust Buffer satisfies: the line count and each
line's byte length are usize values. -/
def Buffer.WF (b : Buffer) : Prop :=
  b.lines.length ≤ USIZE_MAX ∧ ∀ l ∈ b.lines, byteLen l ≤ USIZE_MAX

instance (b : Buffer) : Decidable b.WF := by
  unfold Buffer.WF; infer_instance

/-- The clamping invariant of claim C2, exactly as the spec states it. -/
def ClampInv (v : View) : Prop :=
  v.cursor_location.row ≤ max (v.buffer.lines.length - 1) 0 ∧
  v.cursor_location.col ≤ v.buffer.get_line_length v.cursor_location.row

instance (v : View) : Decidable (ClampInv v) := by
  unfold ClampInv; infer_instance

/-- An event that is a Move or a Resize (the two kinds for which the
clamping invariant is stable). -/
def Event.isMoveOrResize : Event → Bool
  | .move _ => true
  | .resize _ _ => true
  | _ => false

/-- The claim C5 reading of line_length: max(character_count - 1, 0) for an
existing row, 0 for an out-of-range row. -/
def specLineLengthChars (b : Buffer) (row : Nat) : Nat :=
  match b.lines.get? row with
  | some line => max (line.length - 1) 0
  | none => 0

/-- line_length as the code actually computes it, stated in the claim's
shape: max(byte_count - 1, 0) for an existing row, 0 for an out-of-range
row. -/
def specLineLengthBytes (b : Buffer) (row : Nat) : Nat :=
  match b.lines.get? row with
  | some line => max (byteLen line - 1) 0
  | none => 0

/-! ### Basic facts about the embedding -/

theorem move_cursor_buffer (v : View) (k : MoveKey) :
    (v.move_cursor k).buffer = v.buffer := rfl

theorem move_cursor_cursor (v : View) (k : MoveKey) :
    (v.move_cursor k).cursor_location = cursorAfter v.buffer v.cursor_location k := rfl

theorem move_cursor_size (v : View) (k : MoveKey) :
    (v.move_cursor k).current_size = v.current_size := rfl

/-- Out-of-range rows have line length 0. -/
theorem get_line_length_of_le (b : Buffer) (r : Nat) (h : b.lines.length ≤ r) :
    b.get_line_length r = 0 := by
  unfold Buffer.get_line_length
  rw [List.get?_eq_none.mpr h]

/-- In a well-formed buffer, every line length the code reports is below
usize::MAX. -/
theorem get_line_length_lt_max (b : Buffer) (hwf : b.WF) (r : Nat) :
    b.get_line_length r < USIZE_MAX := by
  unfold Buffer.get_line_length
  cases h : b.lines.get? r with
  | none => simp [USIZE_MAX]
  | some line =>
    have hmem : line ∈ b.lines := List.get?_mem h
    have hb := hwf.2 line hmem
    simp only [USIZE_MAX] at hb ⊢
    omega

/-- In a well-formed buffer the last line index is a usize value. -/
theorem get_last_line_index_le_max (b : Buffer) (hwf : b.WF) :
    b.get_last_line_index ≤ USIZE_MAX := by
  unfold Buffer.get_last_line_index
  have h1 := hwf.1
  omega

/-- The clamp at the end of move_cursor establishes the clamping
invariant for any intermediate location, because a column clamped against
an out-of-range row was clamped to 0. -/
theorem clamp_establishes_inv (b : Buffer) (r c : Nat) :
    min r b.get_last_line_index ≤ max (b.lines.length - 1) 0 ∧
    min c (b.get_line_length r) ≤
      b.get_line_length (min r b.get_last_line_index) := by
  constructor
  · unfold Buffer.get_last_line_index
    omega
  · by_cases h : r ≤ b.get_last_line_index
    · rw [min_eq_left h]
      exact min_le_right _ _
    · have hlen : b.lines.length ≤ r := by
        unfold Buffer.get_last_line_index at h
        omega
      rw [get_line_length_of_le b r hlen]
      simp

/-- Applied to any state, move_cursor produces a cursor satisfying the
clamping invariant (regardless of the state it started from). -/
theorem cursorAfter_clamped (b : Buffer) (loc : Location) (k : MoveKey) :
    (cursorAfter b loc k).row ≤ max (b.lines.length - 1) 0 ∧
    (cursorAfter b loc k).col ≤ b.get_line_length (cursorAfter b loc k).row := by
  cases k <;> exact clamp_establishes_inv b _ _

/-! ### Claim C4: slicing on character boundaries -/

/-- C4: the claim says Document.slice never splits a multi-byte character
and is total.  The code computes `&line[start..=end]` where `end` is the
byte offset at which the last included character STARTS, so for a
multi-byte final character the slice endpoint falls inside that character
and the string indexing panics: on the one-line document "é",
slice(0, 0, 1) panics instead of returning "é". -/
theorem C4_slice_panics_on_multibyte :
    Buffer.get_truncated_line ⟨[['é']], "f"⟩ 0 0 1 = SliceResult.panicked := by
  decide

/-! ### Claim C5: line_length counts bytes, not characters -/

/-- C5 counterexample: on the one-line document "é" (one character, two
UTF-8 bytes), get_line_length returns 1, not max(character_count - 1, 0)
= 0 as the claim states. -/
theorem C5_counterexample :
    Buffer.get_line_length ⟨[['é']], "f"⟩ 0 ≠ specLineLengthChars ⟨[['é']], "f"⟩ 0 := by
  decide

/-- C5 amended: for every document and row, line_length(row) returns
max(byte_count - 1, 0) where byte_count is the UTF-8 byte length of the
line at row (which equals the character count only for ASCII lines), and
returns 0 for an out-of-range row; it is a total function. -/
theorem C5_line_length_is_bytes (b : Buffer) (row : Nat) :
    b.get_line_length row = specLineLengthBytes b row := by
  unfold Buffer.get_line_length specLineLengthBytes
  cases h : b.lines.get? row <;> simp

/-! ### Claim C9: a failed load leaves the state untouched -/

/-- C9: if Load fails with an I/O error, the error is returned to the
caller and the Document, cursor location, scroll offset and redraw flag
are all left exactly as they were (the `?` operator returns before the
buffer assignment). -/
theorem C9_load_error_preserves_state (v : View) (p : String) (e : IOError) :
    (v.load p (.error e)).1 = .error e ∧
    (v.load p (.error e)).2.buffer = v.buffer ∧
    (v.load p (.error e)).2.cursor_location = v.cursor_location ∧
    (v.load p (.error e)).2.scroll_offset = v.scroll_offset ∧
    (v.load p (.error e)).2.needs_redraw = v.needs_redraw :=
  ⟨rfl, rfl, rfl, rfl, rfl⟩

/-! ### Claim C10: Down on the last line resets the column -/

/-- C10: on a non-empty document, Move(Down) with the cursor on the last
line keeps the row at the last line index but resets the column to 0,
whatever the column was: the column clamp runs against the incremented,
out-of-range row (whose line length is reported as 0) before the row clamp
pulls the row back. -/
theorem C10_down_on_last_line (v : View)
    (hne : v.buffer.lines ≠ [])
    (hlen : v.buffer.lines.length ≤ USIZE_MAX)
    (hrow : v.cursor_location.row = v.buffer.get_last_line_index) :
    (v.move_cursor .down).cursor_location =
      ⟨v.buffer.get_last_line_index, 0⟩ := by
  have hpos : 0 < v.buffer.lines.length := List.length_pos.mpr hne
  rw [move_cursor_cursor]
  have h1 : sadd v.cursor_location.row 1 = v.buffer.lines.length := by
    rw [hrow]
    unfold Buffer.get_last_line_index
    simp only [sadd, USIZE_MAX] at hlen ⊢
    omega
  have h2 : v.buffer.get_line_length v.buffer.lines.length = 0 :=
    get_line_length_of_le _ _ le_rfl
  show (⟨min (sadd v.cursor_location.row 1) v.buffer.get_last_line_index,
         min v.cursor_location.col
           (v.buffer.get_line_length (sadd v.cursor_location.row 1))⟩ : Location) = _
  rw [h1, h2]
  unfold Buffer.get_last_line_index
  congr 1
  · omega
  · omega

/-- A small concrete controller state used by the C10 witness: a two-line
document with the cursor at (1, 1). -/
def c10View : View :=
  { buffer := ⟨[['a','b'],['c','d']], "f"⟩, needs_redraw := false,
    current_size := ⟨5, 5⟩, cursor_location := ⟨1, 1⟩,
    scroll_offset := ⟨0, 0⟩ }

/-- Witness for C10: Down at (1, 1) on the two-line document lands on
(1, 0). -/
theorem C10_down_on_last_line_witness :
    (c10View.move_cursor .down).cursor_location =
      ⟨c10View.buffer.get_last_line_index, 0⟩ :=
  C10_down_on_last_line c10View (by decide) (by decide) (by decide)

/-! ### Claim C3: render is not gated by the redraw flag -/

/-- A state whose redraw flag is set and whose terminal (5 wide, 3 high)
is comfortably large enough to paint. -/
def c3View : View :=
  { buffer := ⟨[['h','i']], "f"⟩, needs_redraw := true,
    current_size := ⟨5, 3⟩, cursor_location := ⟨0, 0⟩,
    scroll_offset := ⟨0, 0⟩ }

/-- The state after the first successful render: only the flag changed. -/
def c3ViewAfter : View := { c3View with needs_redraw := false }

/-- C3: the claim says a second Render with no intervening event is a
no-op because the redraw flag is clear.  The source's guard is
`!needs_redraw && !is_of_sufficient_size()`, a conjunction, so once the
window is of sufficient size the early return is never taken and every
Render paints: the first render paints, clears the flag and yields
c3ViewAfter, and rendering c3ViewAfter paints the whole frame again. -/
theorem C3_second_render_paints_again :
    (c3View.render).map Prod.snd = some c3ViewAfter ∧
    (c3View.render).map (fun r => r.1.isSome) = some true ∧
    c3ViewAfter.needs_redraw = false ∧
    (c3ViewAfter.render).map (fun r => r.1.isSome) = some true := by
  decide

/-! ### Claim C6: a too-small viewport does not skip the paint -/

/-- A state with the redraw flag set whose terminal is 5 wide but only 1
row high (usable height 0). -/
def c6View : View :=
  { buffer := ⟨[['h','i']], "f"⟩, needs_redraw := true,
    current_size := ⟨5, 1⟩, cursor_location := ⟨0, 0⟩,
    scroll_offset := ⟨0, 0⟩ }

/-- C6: the claim says that with height ≤ 1 Render skips painting
entirely and keeps the redraw flag.  Because the source's early-return
guard is a conjunction, a set flag forces the paint pass to run even when
the viewport is too small: on a height-1 terminal it paints the status
bar (into the only row) and clears the redraw flag. -/
theorem C6_small_viewport_still_paints :
    c6View.current_size.height ≤ 1 ∧
    (c6View.render).map (fun r => r.1.map Paint.statusBar) = some (some true) ∧
    (c6View.render).map (fun r => r.2.needs_redraw) = some false := by
  decide

/-! ### Claim C1: the visibility invariant -/

/-- C1 counterexample: a reachable state (load "abc", resize to a 1×3
terminal, press End) with usable_height = 2 > 0 and width = 1 > 0 in
which the cursor column equals scroll.col + width, violating the claimed
strict bound cursor.col < scroll.col + width: update_scroll uses
view_end_col = scroll.col + width (not width - 1), leaving the cursor one
column past the visible rectangle. -/
theorem C1_counterexample :
    0 < (View.applyEvents View.initial
          [.load "f" [['a','b','c']], .resize 1 3, .move .endKey]).buffer_height ∧
    0 < (View.applyEvents View.initial
          [.load "f" [['a','b','c']], .resize 1 3, .move .endKey]).current_size.width ∧
    ¬ ((View.applyEvents View.initial
          [.load "f" [['a','b','c']], .resize 1 3, .move .endKey]).cursor_location.col <
        (View.applyEvents View.initial
          [.load "f" [['a','b','c']], .resize 1 3, .move .endKey]).scroll_offset.col +
        (View.applyEvents View.initial
          [.load "f" [['a','b','c']], .resize 1 3, .move .endKey]).current_size.width) := by
  decide

/-! ### Claim C2: the clamping invariant -/

/-- C2 counterexample: the claim quantifies over sequences that include
Load events, but Load keeps the old cursor, so loading a three-line file,
moving down twice and then loading a one-line file leaves the cursor at
row 2 while max(line_count - 1, 0) = 0. -/
theorem C2_counterexample :
    ¬ ClampInv (View.applyEvents View.initial
      [.load "a" [['a','b'],['c','d'],['e','f']], .move .down, .move .down,
       .load "b" [['x']]]) := by
  decide

/-! ### The scroll readjustment bounds (claim C1 amended) -/

/-- The readjusted scroll coordinate never passes the cursor. -/
theorem scrollAdjust_le (scroll cursor span : Nat) (hc : cursor ≤ USIZE_MAX) :
    scrollAdjust scroll cursor span ≤ cursor := by
  unfold scrollAdjust
  simp only [sadd, USIZE_MAX] at *
  split_ifs <;> omega

/-- After readjustment the cursor is at most `span` past the scroll
coordinate (for columns, with span = width, this allows the cursor to sit
exactly one cell past the visible rectangle). -/
theorem scrollAdjust_visible (scroll cursor span : Nat) (hc : cursor ≤ USIZE_MAX) :
    cursor ≤ scrollAdjust scroll cursor span + span := by
  unfold scrollAdjust
  simp only [sadd, USIZE_MAX] at *
  split_ifs <;> omega

theorem move_cursor_scroll (v : View) (k : MoveKey) :
    (v.move_cursor k).scroll_offset =
      ⟨scrollAdjust v.scroll_offset.row
          (cursorAfter v.buffer v.cursor_location k).row (v.buffer_height - 1),
        scrollAdjust v.scroll_offset.col
          (cursorAfter v.buffer v.cursor_location k).col v.current_size.width⟩ := rfl

/-- In a well-formed buffer the clamped cursor is a usize value. -/
theorem cursorAfter_le_max (b : Buffer) (loc : Location) (k : MoveKey)
    (hwf : b.WF) :
    (cursorAfter b loc k).row ≤ USIZE_MAX ∧
    (cursorAfter b loc k).col ≤ USIZE_MAX := by
  have h := cursorAfter_clamped b loc k
  have h1 := hwf.1
  have h2 := get_line_length_lt_max b hwf (cursorAfter b loc k).row
  constructor
  · have := h.1
    omega
  · have := h.2
    omega

/-- C1 amended: immediately after any Move event — the only events that
run update_scroll — the cursor satisfies
scroll.row ≤ cursor.row < scroll.row + usable_height (when
usable_height = height - 1 > 0) and
scroll.col ≤ cursor.col ≤ scroll.col + width.  The column bound is one
wider than the claim's strict bound, and states reached by a Resize or
Load without a subsequent Move need not satisfy any of the bounds, since
neither Resize nor Render recomputes the scroll. -/
theorem C1_visibility_after_move (v : View) (k : MoveKey) (hwf : v.buffer.WF) :
    (v.move_cursor k).scroll_offset.row ≤ (v.move_cursor k).cursor_location.row ∧
    (1 < v.current_size.height →
      (v.move_cursor k).cursor_location.row <
        (v.move_cursor k).scroll_offset.row + (v.current_size.height - 1)) ∧
    (v.move_cursor k).scroll_offset.col ≤ (v.move_cursor k).cursor_location.col ∧
    (v.move_cursor k).cursor_location.col ≤
      (v.move_cursor k).scroll_offset.col + v.current_size.width := by
  have hca := cursorAfter_le_max v.buffer v.cursor_location k hwf
  rw [move_cursor_scroll, move_cursor_cursor]
  refine ⟨?_, ?_, ?_, ?_⟩
  · exact scrollAdjust_le _ _ _ hca.1
  · intro hh
    have h1 := scrollAdjust_visible v.scroll_offset.row
      (cursorAfter v.buffer v.cursor_location k).row (v.buffer_height - 1) hca.1
    unfold View.buffer_height at h1
    show _ < scrollAdjust v.scroll_offset.row
      (cursorAfter v.buffer v.cursor_location k).row (v.buffer_height - 1) +
        (v.current_size.height - 1)
    unfold View.buffer_height
    omega
  · exact scrollAdjust_le _ _ _ hca.2
  · exact scrollAdjust_visible _ _ _ hca.2

/-- Witness for C1 amended: the two-line document state, Move(Down). -/
theorem C1_visibility_after_move_witness :
    (c10View.move_cursor .down).scroll_offset.row ≤
        (c10View.move_cursor .down).cursor_location.row ∧
    (1 < c10View.current_size.height →
      (c10View.move_cursor .down).cursor_location.row <
        (c10View.move_cursor .down).scroll_offset.row +
          (c10View.current_size.height - 1)) ∧
    (c10View.move_cursor .down).scroll_offset.col ≤
        (c10View.move_cursor .down).cursor_location.col ∧
    (c10View.move_cursor .down).cursor_location.col ≤
      (c10View.move_cursor .down).scroll_offset.col +
        c10View.current_size.width :=
  C1_visibility_after_move c10View .down (by decide)

/-! ### Claim C8: Left/Right inverse properties -/

theorem Location.ext' (p q : Location) (h1 : p.row = q.row) (h2 : p.col = q.col) :
    p = q := by
  cases p
  cases q
  cases h1
  cases h2
  rfl

theorem cursorAfter_right_eq (b : Buffer) (loc : Location) :
    cursorAfter b loc .right =
      if loc.col = b.get_line_length loc.row then
        ⟨min (sadd loc.row 1) b.get_last_line_index,
         min 0 (b.get_line_length (sadd loc.row 1))⟩
      else
        ⟨min loc.row b.get_last_line_index,
         min (sadd loc.col 1) (b.get_line_length loc.row)⟩ := by
  simp only [cursorAfter]
  split_ifs <;> rfl

theorem cursorAfter_left_eq (b : Buffer) (loc : Location) :
    cursorAfter b loc .left =
      if loc.col = 0 then
        if loc.row ≠ 0 then
          ⟨min (loc.row - 1) b.get_last_line_index,
           min (b.get_line_length (loc.row - 1)) (b.get_line_length (loc.row - 1))⟩
        else
          ⟨min loc.row b.get_last_line_index,
           min loc.col (b.get_line_length loc.row)⟩
      else
        ⟨min loc.row b.get_last_line_index,
         min (loc.col - 1) (b.get_line_length loc.row)⟩ := by
  simp only [cursorAfter]
  split_ifs <;> rfl

/-- Right then Left from a clamped, non-end position restores the cursor. -/
theorem cursorAfter_right_left (b : Buffer) (loc : Location) (hwf : b.WF)
    (hrow : loc.row ≤ b.get_last_line_index)
    (hcol : loc.col ≤ b.get_line_length loc.row)
    (hne : ¬(loc.row = b.get_last_line_index ∧
             loc.col = b.get_line_length loc.row)) :
    cursorAfter b (cursorAfter b loc .right) .left = loc := by
  have hlast := get_last_line_index_le_max b hwf
  have hL := get_line_length_lt_max b hwf loc.row
  by_cases hc : loc.col = b.get_line_length loc.row
  · have hrlt : loc.row < b.get_last_line_index :=
      lt_of_le_of_ne hrow fun he => hne ⟨he, hc⟩
    have h1 : cursorAfter b loc .right = ⟨loc.row + 1, 0⟩ := by
      rw [cursorAfter_right_eq, if_pos hc]
      have hs : sadd loc.row 1 = loc.row + 1 := by
        simp only [sadd, USIZE_MAX] at *
        omega
      rw [hs]
      congr 1
      · omega
      · omega
    rw [h1, cursorAfter_left_eq]
    have hcol0 : (⟨loc.row + 1, 0⟩ : Location).col = 0 := rfl
    rw [if_pos hcol0]
    have hrne : (⟨loc.row + 1, 0⟩ : Location).row ≠ 0 := Nat.succ_ne_zero _
    rw [if_pos hrne]
    show (⟨min loc.row b.get_last_line_index,
          min (b.get_line_length loc.row) (b.get_line_length loc.row)⟩ : Location) = loc
    rw [min_self, min_eq_left hrow, ← hc]
  · have hclt : loc.col < b.get_line_length loc.row := lt_of_le_of_ne hcol hc
    have h1 : cursorAfter b loc .right = ⟨loc.row, loc.col + 1⟩ := by
      rw [cursorAfter_right_eq, if_neg hc]
      have hs : sadd loc.col 1 = loc.col + 1 := by
        simp only [sadd, USIZE_MAX] at *
        omega
      rw [hs]
      congr 1
      · exact min_eq_left hrow
      · omega
    rw [h1, cursorAfter_left_eq]
    have hcne : ¬((⟨loc.row, loc.col + 1⟩ : Location).col = 0) := Nat.succ_ne_zero _
    rw [if_neg hcne]
    show (⟨min loc.row b.get_last_line_index,
          min loc.col (b.get_line_length loc.row)⟩ : Location) = loc
    rw [min_eq_left hrow, min_eq_left hcol]

/-- Left then Right from a clamped, non-start position restores the
cursor. -/
theorem cursorAfter_left_right (b : Buffer) (loc : Location) (hwf : b.WF)
    (hrow : loc.row ≤ b.get_last_line_index)
    (hcol : loc.col ≤ b.get_line_length loc.row)
    (hne : ¬(loc.row = 0 ∧ loc.col = 0)) :
    cursorAfter b (cursorAfter b loc .left) .right = loc := by
  have hlast := get_last_line_index_le_max b hwf
  have hL := get_line_length_lt_max b hwf loc.row
  by_cases hc : loc.col = 0
  · have hr0 : loc.row ≠ 0 := fun h => hne ⟨h, hc⟩
    have hrow1 : loc.row - 1 ≤ b.get_last_line_index :=
      le_trans (Nat.sub_le _ _) hrow
    have h1 : cursorAfter b loc .left =
        ⟨loc.row - 1, b.get_line_length (loc.row - 1)⟩ := by
      rw [cursorAfter_left_eq, if_pos hc, if_pos hr0]
      congr 1
      · exact min_eq_left hrow1
      · exact min_self _
    rw [h1, cursorAfter_right_eq]
    have hcond : (⟨loc.row - 1, b.get_line_length (loc.row - 1)⟩ : Location).col =
        b.get_line_length
          (⟨loc.row - 1, b.get_line_length (loc.row - 1)⟩ : Location).row := rfl
    rw [if_pos hcond]
    show (⟨min (sadd (loc.row - 1) 1) b.get_last_line_index,
          min 0 (b.get_line_length (sadd (loc.row - 1) 1))⟩ : Location) = loc
    have hs : sadd (loc.row - 1) 1 = loc.row := by
      simp only [sadd, USIZE_MAX] at *
      omega
    rw [hs, min_eq_left hrow, Nat.zero_min, ← hc]
  · have h1 : cursorAfter b loc .left = ⟨loc.row, loc.col - 1⟩ := by
      rw [cursorAfter_left_eq, if_neg hc]
      congr 1
      · exact min_eq_left hrow
      · omega
    rw [h1, cursorAfter_right_eq]
    have hcne : ¬((⟨loc.row, loc.col - 1⟩ : Location).col =
        b.get_line_length (⟨loc.row, loc.col - 1⟩ : Location).row) := by
      show ¬(loc.col - 1 = b.get_line_length loc.row)
      omega
    rw [if_neg hcne]
    show (⟨min loc.row b.get_last_line_index,
          min (sadd (loc.col - 1) 1) (b.get_line_length loc.row)⟩ : Location) = loc
    have hs : sadd (loc.col - 1) 1 = loc.col := by
      simp only [sadd, USIZE_MAX] at *
      omega
    rw [hs, min_eq_left hrow, min_eq_left hcol]

/-- Left at the document start leaves the cursor unchanged. -/
theorem cursorAfter_left_origin (b : Buffer) (loc : Location)
    (h1 : loc.row = 0) (h2 : loc.col = 0) :
    cursorAfter b loc .left = loc := by
  rw [cursorAfter_left_eq, if_pos h2, if_neg (fun hn => hn h1)]
  apply Location.ext'
  · show min loc.row b.get_last_line_index = loc.row
    omega
  · show min loc.col (b.get_line_length loc.row) = loc.col
    omega

/-- Right at the document end jumps to column 0 of the last line. -/
theorem cursorAfter_right_at_end (b : Buffer) (loc : Location) (hwf : b.WF)
    (h1 : loc.row = b.get_last_line_index)
    (h2 : loc.col = b.get_line_length loc.row) :
    cursorAfter b loc .right = ⟨b.get_last_line_index, 0⟩ := by
  have hlast := get_last_line_index_le_max b hwf
  rw [cursorAfter_right_eq, if_pos h2]
  apply Location.ext'
  · show min (sadd loc.row 1) b.get_last_line_index = b.get_last_line_index
    simp only [sadd, USIZE_MAX] at *
    omega
  · show min 0 (b.get_line_length (sadd loc.row 1)) = 0
    omega

/-- C8 amended: from any position satisfying the clamping invariant,
Move(Right) then Move(Left) restores the cursor unless the position is
the document end, and Move(Left) then Move(Right) restores it unless the
position is the document start; at the start, Move(Left) is a no-op on
the cursor; at the end, Move(Right) is NOT in general a no-op — it moves
the cursor to column 0 of the last line (a no-op only when the last
line's length is 0). -/
theorem C8_left_right_inverse (v : View) (hwf : v.buffer.WF)
    (hrow : v.cursor_location.row ≤ v.buffer.get_last_line_index)
    (hcol : v.cursor_location.col ≤
      v.buffer.get_line_length v.cursor_location.row) :
    (¬(v.cursor_location.row = v.buffer.get_last_line_index ∧
       v.cursor_location.col = v.buffer.get_line_length v.cursor_location.row) →
      ((v.move_cursor .right).move_cursor .left).cursor_location =
        v.cursor_location) ∧
    (¬(v.cursor_location.row = 0 ∧ v.cursor_location.col = 0) →
      ((v.move_cursor .left).move_cursor .right).cursor_location =
        v.cursor_location) ∧
    ((v.cursor_location.row = 0 ∧ v.cursor_location.col = 0) →
      (v.move_cursor .left).cursor_location = v.cursor_location) ∧
    ((v.cursor_location.row = v.buffer.get_last_line_index ∧
      v.cursor_location.col = v.buffer.get_line_length v.cursor_location.row) →
      (v.move_cursor .right).cursor_location =
        ⟨v.buffer.get_last_line_index, 0⟩) := by
  refine ⟨?_, ?_, ?_, ?_⟩
  · intro hne
    rw [move_cursor_cursor, move_cursor_buffer, move_cursor_cursor]
    exact cursorAfter_right_left v.buffer v.cursor_location hwf hrow hcol hne
  · intro hne
    rw [move_cursor_cursor, move_cursor_buffer, move_cursor_cursor]
    exact cursorAfter_left_right v.buffer v.cursor_location hwf hrow hcol hne
  · intro h
    rw [move_cursor_cursor]
    exact cursorAfter_left_origin v.buffer v.cursor_location h.1 h.2
  · intro h
    rw [move_cursor_cursor]
    exact cursorAfter_right_at_end v.buffer v.cursor_location hwf h.1 h.2


/-- The reachable state used by the C8 counterexample: load the one-line
document "ab" and press End, putting the cursor at the document end
(row 0, col 1 = line_length of "ab"). -/
def c8EndView : View :=
  View.applyEvents View.initial [.load "f" [['a','b']], .move .endKey]

/-- C8 counterexample: at the document end of the one-line document "ab"
(cursor (0, 1), reached by pressing End), the claim says Move(Right) is a
no-op, but the code wraps (row += 1, col := 0), the column clamp keeps
col = 0, and the row clamp pulls the row back: the cursor jumps to
(0, 0). -/
theorem C8_counterexample :
    c8EndView.cursor_location.row = c8EndView.buffer.get_last_line_index ∧
    c8EndView.cursor_location.col =
      c8EndView.buffer.get_line_length c8EndView.cursor_location.row ∧
    (c8EndView.move_cursor .right).cursor_location ≠ c8EndView.cursor_location := by
  decide

/-- A two-line document with the cursor at (0, 1): neither the document
start nor the document end. -/
def c8WitnessView : View :=
  { buffer := ⟨[['a','b'],['c','d']], "f"⟩, needs_redraw := false,
    current_size := ⟨5, 5⟩, cursor_location := ⟨0, 1⟩,
    scroll_offset := ⟨0, 0⟩ }

/-- Witness for C8 amended: instantiated at the two-line document with
the cursor at (0, 1). -/
theorem C8_left_right_inverse_witness :
    (¬(c8WitnessView.cursor_location.row = c8WitnessView.buffer.get_last_line_index ∧
       c8WitnessView.cursor_location.col =
         c8WitnessView.buffer.get_line_length c8WitnessView.cursor_location.row) →
      ((c8WitnessView.move_cursor .right).move_cursor .left).cursor_location =
        c8WitnessView.cursor_location) ∧
    (¬(c8WitnessView.cursor_location.row = 0 ∧ c8WitnessView.cursor_location.col = 0) →
      ((c8WitnessView.move_cursor .left).move_cursor .right).cursor_location =
        c8WitnessView.cursor_location) ∧
    ((c8WitnessView.cursor_location.row = 0 ∧ c8WitnessView.cursor_location.col = 0) →
      (c8WitnessView.move_cursor .left).cursor_location =
        c8WitnessView.cursor_location) ∧
    ((c8WitnessView.cursor_location.row = c8WitnessView.buffer.get_last_line_index ∧
      c8WitnessView.cursor_location.col =
        c8WitnessView.buffer.get_line_length c8WitnessView.cursor_location.row) →
      (c8WitnessView.move_cursor .right).cursor_location =
        ⟨c8WitnessView.buffer.get_last_line_index, 0⟩) :=
  C8_left_right_inverse c8WitnessView (by decide) (by decide) (by decide)

/-- Any Move event establishes the clamping invariant outright. -/
theorem clampInv_move (v : View) (k : MoveKey) : ClampInv (v.move_cursor k) :=
  cursorAfter_clamped v.buffer v.cursor_location k

/-- Resize keeps buffer and cursor, hence preserves the invariant. -/
theorem clampInv_resize (v : View) (w h : Nat) (hv : ClampInv v) :
    ClampInv (v.handle_resize_event w h) := hv

/-- C2 amended: for every sequence of Move and Resize events applied to
a state satisfying the clamping invariant (such as the initial state),
the invariant holds after each event; a successful Load, by contrast,
keeps the old cursor and so can break the invariant until the next Move
(see the counterexample). -/
theorem C2_clamp_inv_move_resize (v : View) (evs : List Event)
    (hevs : ∀ e ∈ evs, e.isMoveOrResize = true)
    (hv : ClampInv v) :
    ClampInv (View.applyEvents v evs) := by
  induction evs generalizing v with
  | nil => exact hv
  | cons e rest ih =>
    have he := hevs e (List.mem_cons_self e rest)
    have hrest : ∀ e' ∈ rest, e'.isMoveOrResize = true :=
      fun e' h' => hevs e' (List.mem_cons_of_mem e h')
    show ClampInv (View.applyEvents (v.applyEvent e) rest)
    apply ih _ hrest
    cases e with
    | move k => exact clampInv_move v k
    | resize w h => exact clampInv_resize v w h hv
    | load p content => simp [Event.isMoveOrResize] at he
    | loadErr p e' => simp [Event.isMoveOrResize] at he

/-- Witness for C2 amended: a concrete Move/Resize sequence from the
initial state. -/
theorem C2_clamp_inv_move_resize_witness :
    ClampInv (View.applyEvents View.initial
      [.move .down, .resize 3 3, .move .right]) :=
  C2_clamp_inv_move_resize View.initial [.move .down, .resize 3 3, .move .right]
    (by decide) (by decide)

/-- The event chain of the C7 counterexample: a nine-line document, a
10-row terminal, the cursor moved down to row 8 (scroll stays at 0 since
rows 0..8 are visible), then a shrink to a 2-row terminal. -/
def c7Events : List Event :=
  [.load "f" [['a'],['b'],['c'],['d'],['e'],['f'],['g'],['h'],['i']],
   .resize 80 10,
   .move .down, .move .down, .move .down, .move .down,
   .move .down, .move .down, .move .down, .move .down,
   .resize 80 2]

/-- C7 counterexample: the claim's own scenario.  A nine-line document
on a 10-row terminal with the cursor moved to row 8 (scroll.row = 0),
then a Resize to height 2: the following Render paints, but leaves
scroll.row at 0, so the cursor row 8 is NOT inside the new usable height
of 1 — neither Resize nor Render recomputes the scroll offset. -/
theorem C7_counterexample :
    (View.applyEvents View.initial c7Events).cursor_location.row = 8 ∧
    (View.applyEvents View.initial c7Events).current_size.height = 2 ∧
    ((View.applyEvents View.initial c7Events).render).map (fun r => r.1.isSome) =
      some true ∧
    ((View.applyEvents View.initial c7Events).render).map
      (fun r => decide (r.2.cursor_location.row <
        r.2.scroll_offset.row + r.2.buffer_height)) = some false := by
  decide

/-- C7 amended: the scroll offset is recomputed only by Move events.
Resize overwrites the dimensions and sets the redraw flag but never
touches the scroll offset, and Render (whenever it returns) also leaves
the scroll offset exactly as it was. -/
theorem C7_scroll_only_on_move (v : View) (w h : Nat)
    (p : Option Paint) (v' : View) (hr : v.render = some (p, v')) :
    (v.handle_resize_event w h).scroll_offset = v.scroll_offset ∧
    v'.scroll_offset = v.scroll_offset := by
  constructor
  · rfl
  · simp only [View.render] at hr
    split at hr
    · simp only [Option.some.injEq, Prod.mk.injEq] at hr
      rw [← hr.2]
    · split at hr
      · exact absurd hr (by simp)
      · split at hr
        · exact absurd hr (by simp)
        · simp only [Option.some.injEq, Prod.mk.injEq] at hr
          rw [← hr.2]

/-- Witness for C7 amended: the initial state, whose render returns
without painting. -/
theorem C7_scroll_only_on_move_witness :
    (View.initial.handle_resize_event 3 3).scroll_offset =
        View.initial.scroll_offset ∧
    View.initial.scroll_offset = View.initial.scroll_offset :=
  C7_scroll_only_on_move View.initial 3 3 none View.initial (by decide)


end Vyse
